import Mathlib

/-!
Shallow embedding of the postgres MCP server (`src/postgres/index.ts`):
the request dispatcher, the dynamic SQL builders for the four tools
(`query`, `insert`, `update`, `delete`), and the resource handlers.

Stateful parts (connection acquisition/release, statement execution) are
modelled by explicit event traces; the database driver is modelled as a
function from a parameterized statement to a row list or an error string.
-/

namespace Pg

/-- A primitive JSON-like value, modelling the JavaScript values that can be
bound as statement parameters or appear in result rows. -/
inductive Value where
  | str (s : String)
  | int (n : Int)
  | bool (b : Bool)
  | null
deriving DecidableEq, Repr

/-- A result row from the driver: a JS object modelled as an ordered
association list of field names to values. -/
abbrev Row := List (String × Value)

/-- A built statement: parameterized SQL text plus its ordered bound values
(`client.query(sql, values)`). -/
structure Statement where
  text : String
  values : List Value
deriving DecidableEq, Repr

/-- The database driver, as consumed by the dispatcher: executing a statement
either yields rows or fails (a rejected promise, whose message is the
string). -/
abbrev Db := Statement → Except String (List Row)

/-- Observable events on the connection pool: `client = await pool.connect()`,
`client.release()`, and `client.query(...)`. -/
inductive Event where
  | acquire
  | release
  | exec (s : Statement)
deriving DecidableEq, Repr

/-- String rendering of a primitive value, modelling JS template-literal
interpolation of such a value. -/
def valueToString : Value → String
  | .str s => s
  | .int n => toString n
  | .bool b => if b then "true" else "false"
  | .null => "null"

/-- Rendering of a single flat row object, modelling `JSON.stringify(row, null, 2)`
restricted to the primitive values of this embedding. -/
def stringifyRow (r : Row) : String :=
  "\x7b\n" ++
    String.intercalate ",\n"
      (r.map fun kv => "  \"" ++ kv.1 ++ "\": " ++
        (match kv.2 with
         | .str s => "\"" ++ s ++ "\""
         | .int n => toString n
         | .bool b => if b then "true" else "false"
         | .null => "null")) ++
  "\n\x7d"

/-- Rendering of a row array, modelling `JSON.stringify(result.rows, null, 2)`. -/
def stringifyRows (rs : List Row) : String :=
  match rs with
  | [] => "[]"
  | _ => "[\n" ++ String.intercalate ",\n" (rs.map stringifyRow) ++ "\n]"

/-- Line 42: `const SCHEMA_PATH = "schema"`. -/
def SCHEMA_PATH : String := "schema"

/-- The mutable fields of a WHATWG `URL` object that the program touches:
protocol, username, password, host (including any port), pathname. -/
structure JsUrl where
  protocol : String
  username : String
  password : String
  host : String
  pathname : String
deriving DecidableEq, Repr

/-- WHATWG serialization (`url.href`) for a URL with a host, restricted to the
fields modelled here: userinfo is printed iff username or password is
non-empty, the password after a colon iff non-empty. -/
def JsUrl.href (u : JsUrl) : String :=
  u.protocol ++ "//" ++
  (if u.username ≠ "" ∨ u.password ≠ "" then
    u.username ++ (if u.password ≠ "" then ":" ++ u.password else "") ++ "@"
   else "") ++
  u.host ++ u.pathname

/-- Lines 34-36: `const resourceBaseUrl = new URL(databaseUrl);
resourceBaseUrl.protocol = "postgres:"; resourceBaseUrl.password = "";`.
The connection string is taken already parsed into its URL components. -/
def resourceBaseUrl (databaseUrl : JsUrl) : JsUrl :=
  { databaseUrl with protocol := "postgres:", password := "" }

/-- Splitting a character list at every occurrence of a separator, keeping
empty fragments, by structural recursion. -/
def splitChars (sep : Char) : List Char → List String
  | [] => [""]
  | c :: rest =>
      match splitChars sep rest with
      | [] => [""]
      | h :: t => if c = sep then "" :: h :: t else String.mk (c :: h.data) :: t

/-- JS `s.split(sep)` for a one-character separator, as used on
`resourceUrl.pathname` (line 65): every occurrence splits, empty fragments
are kept, the empty string splits to one empty fragment. -/
def jsSplit (s : String) (sep : Char) : List String :=
  splitChars sep s.data

/-- Resolution of `new URL(rel, base)` where `rel` is a relative path
reference (no scheme, authority, query or fragment — the program only ever
passes a table name followed by `/schema`): the base keeps scheme, userinfo
and host, and the relative part replaces everything after the last slash of
the base path. -/
def resolveRelative (base : JsUrl) (rel : String) : JsUrl :=
  { base with
      pathname :=
        String.intercalate "/" ((jsSplit base.pathname '/').dropLast) ++ "/" ++ rel }

/-- Lines 173-179 (`case "insert"`): columns and values from `data` in
iteration order, placeholders `$1..$n` from an indexed map over the values,
statement text built from quoted identifiers. -/
def buildInsert (table : String) (data : List (String × Value)) : Statement :=
  let columns := data.map Prod.fst
  let values := data.map Prod.snd
  let placeholders :=
    String.intercalate ", " ((List.enumFrom 0 values).map fun p => "$" ++ toString (p.1 + 1))
  { text := "INSERT INTO \"" ++ table ++ "\" (" ++
      String.intercalate ", " (columns.map fun c => "\"" ++ c ++ "\"") ++
      ") VALUES (" ++ placeholders ++ ") RETURNING *",
    values := values }

/-- Lines 195-204 (`case "update"`): SET clause over `data`'s keys with
placeholders starting at `$1`, WHERE clause over `where`'s keys with
placeholders offset by `setValues.length`, joined by `AND`; bound values are
the `data` values followed by the `where` values. -/
def buildUpdate (table : String) (data whereMap : List (String × Value)) : Statement :=
  let setColumns := data.map Prod.fst
  let setValues := data.map Prod.snd
  let whereColumns := whereMap.map Prod.fst
  let whereValues := whereMap.map Prod.snd
  let setClause :=
    String.intercalate ", "
      ((List.enumFrom 0 setColumns).map fun p => "\"" ++ p.2 ++ "\" = $" ++ toString (p.1 + 1))
  let whereClause :=
    String.intercalate " AND "
      ((List.enumFrom 0 whereColumns).map fun p =>
        "\"" ++ p.2 ++ "\" = $" ++ toString (p.1 + 1 + setValues.length))
  { text := "UPDATE \"" ++ table ++ "\" SET " ++ setClause ++ " WHERE " ++ whereClause ++
      " RETURNING *",
    values := setValues ++ whereValues }

/-- Lines 218-222 (`case "delete"`): WHERE clause over `where`'s keys with
placeholders `$1..$m` joined by `AND`. -/
def buildDelete (table : String) (whereMap : List (String × Value)) : Statement :=
  let whereColumns := whereMap.map Prod.fst
  let whereValues := whereMap.map Prod.snd
  let whereClause :=
    String.intercalate " AND "
      ((List.enumFrom 0 whereColumns).map fun p => "\"" ++ p.2 ++ "\" = $" ++ toString (p.1 + 1))
  { text := "DELETE FROM \"" ++ table ++ "\" WHERE " ++ whereClause ++ " RETURNING *",
    values := whereValues }

/-- A call-tool request after the handler's destructuring of the cast
`arguments` bag: one constructor per recognized `request.params.name`, and
`unknown` for any other name (the `default` switch arm). -/
inductive ToolRequest where
  | query (sql : String)
  | insert (table : String) (data : List (String × Value))
  | update (table : String) (data : List (String × Value)) (whereMap : List (String × Value))
  | delete (table : String) (whereMap : List (String × Value))
  | unknown (toolName : String)
deriving DecidableEq, Repr

/-- The body of a tool-result response: the single `content` item's text
(`none` models a JS `undefined` text) and the `isError` flag. -/
structure ToolResponse where
  text : Option String
  isError : Bool
deriving DecidableEq, Repr

/-- Execution step shared by the four tool arms: run the statement, and on
success wrap the rows with the arm's response builder; a driver failure is a
thrown exception (`Except.error`). The trace records the execution. -/
def execRespond (db : Db) (stmt : Statement) (mk : List Row → ToolResponse) :
    Except String ToolResponse × List Event :=
  match db stmt with
  | .ok rows => (.ok (mk rows), [Event.exec stmt])
  | .error e => (.error e, [Event.exec stmt])

/-- Lines 163-233: the `try` body of the call-tool handler — the switch over
`request.params.name`. `insert` serializes `result.rows[0]` (so `undefined`,
modelled `none`, on an empty row list); the other arms serialize
`result.rows`; an unrecognized name throws `Unknown tool: <name>`. -/
def callToolBody (db : Db) : ToolRequest → Except String ToolResponse × List Event
  | .query sql =>
      execRespond db { text := sql, values := [] }
        (fun rows => { text := some (stringifyRows rows), isError := false })
  | .insert table data =>
      execRespond db (buildInsert table data)
        (fun rows => { text := (rows.head?).map stringifyRow, isError := false })
  | .update table data whereMap =>
      execRespond db (buildUpdate table data whereMap)
        (fun rows => { text := some (stringifyRows rows), isError := false })
  | .delete table whereMap =>
      execRespond db (buildDelete table whereMap)
        (fun rows => { text := some (stringifyRows rows), isError := false })
  | .unknown toolName => (.error ("Unknown tool: " ++ toolName), [])

/-- Lines 160-242: the call-tool handler — acquire a client, run the switch
in a `try`, convert any thrown error into an `isError` response in the
`catch`, release the client in the `finally`. -/
def handleCallTool (db : Db) (req : ToolRequest) : ToolResponse × List Event :=
  let body := callToolBody db req
  (match body.1 with
   | .ok r => r
   | .error msg => { text := some ("Error: " ++ msg), isError := true },
   Event.acquire :: (body.2 ++ [Event.release]))

/-- A resource descriptor as returned by the list-resources handler. -/
structure ResourceDescriptor where
  uri : String
  mimeType : String
  name : String
deriving DecidableEq, Repr

/-- Line 47-49: the fixed catalog query of the list-resources handler. -/
def listTablesStmt : Statement :=
  { text := "SELECT table_name FROM information_schema.tables WHERE table_schema = 'public'",
    values := [] }

/-- Field access `row.table_name` on a result row (`undefined` when absent,
rendered as JS would render it into the template literal). -/
def getTableName (row : Row) : String :=
  match row.lookup "table_name" with
  | some v => valueToString v
  | none => "undefined"

/-- Lines 44-60: the list-resources handler — acquire, query the catalog for
public tables, build one descriptor per row with uri
`new URL(tableName + "/" + SCHEMA_PATH, resourceBaseUrl).href`, release in
the `finally`. -/
def handleListResources (databaseUrl : JsUrl) (db : Db) :
    Except String (List ResourceDescriptor) × List Event :=
  match db listTablesStmt with
  | .ok rows =>
      (.ok (rows.map fun row =>
        { uri := (resolveRelative (resourceBaseUrl databaseUrl)
            (getTableName row ++ "/" ++ SCHEMA_PATH)).href,
          mimeType := "application/json",
          name := "\"" ++ getTableName row ++ "\" database schema" }),
       [Event.acquire, Event.exec listTablesStmt, Event.release])
  | .error e => (.error e, [Event.acquire, Event.exec listTablesStmt, Event.release])

/-- A resource-content item as returned by the read-resource handler. -/
structure ResourceContents where
  uri : String
  mimeType : String
  text : String
deriving DecidableEq, Repr

/-- Lines 75-78: the catalog query of the read-resource handler, parameterized
by the popped table-name path segment (a missing segment is JS `undefined`,
bound as null by the driver). -/
def columnsStmt (tableName : Option String) : Statement :=
  { text := "SELECT column_name, data_type FROM information_schema.columns WHERE table_name = $1",
    values := [match tableName with | some t => Value.str t | none => Value.null] }

/-- Lines 62-92: the read-resource handler — split the parsed uri's pathname
on `/`, pop the trailing segment and then the table name, throw
`Invalid resource URI` (before any connection is acquired) unless the
trailing segment is `SCHEMA_PATH`, otherwise acquire, run the catalog query,
and release in the `finally`. -/
def handleReadResource (db : Db) (uri : JsUrl) :
    Except String ResourceContents × List Event :=
  let pathComponents := jsSplit uri.pathname '/'
  let lastSegment := pathComponents.getLast?
  let tableName := pathComponents.dropLast.getLast?
  if lastSegment ≠ some SCHEMA_PATH then
    (.error "Invalid resource URI", [])
  else
    let stmt := columnsStmt tableName
    match db stmt with
    | .ok rows =>
        (.ok { uri := uri.href, mimeType := "application/json",
               text := stringifyRows rows },
         [Event.acquire, Event.exec stmt, Event.release])
    | .error e => (.error e, [Event.acquire, Event.exec stmt, Event.release])

/-- Count of pool releases in a trace. -/
def releaseCount (t : List Event) : Nat :=
  (t.filter fun e => match e with | .release => true | _ => false).length

/-- Count of pool acquisitions in a trace. -/
def acquireCount (t : List Event) : Nat :=
  (t.filter fun e => match e with | .acquire => true | _ => false).length

/-- The SET clause as the spec words it: placeholders `$1..$k` over `data`'s
keys in order, joined by a comma. -/
def spec_setClause (data : List (String × Value)) : String :=
  String.intercalate ", "
    (List.zipWith (fun col i => "\"" ++ col ++ "\" = $" ++ toString i)
      (data.map Prod.fst) (List.range' 1 data.length))

/-- The WHERE clause as the spec words it: placeholders `$(k+1)..$(k+m)` over
the `where` map's keys in order, joined by `AND`. -/
def spec_whereClause (k : Nat) (whereMap : List (String × Value)) : String :=
  String.intercalate " AND "
    (List.zipWith (fun col i => "\"" ++ col ++ "\" = $" ++ toString i)
      (whereMap.map Prod.fst) (List.range' (k + 1) whereMap.length))

/-- The insert column list as the spec words it: `data`'s keys in order, each
identifier-quoted, joined by a comma. -/
def spec_insertColumns (data : List (String × Value)) : String :=
  String.intercalate ", " (data.map fun kv => "\"" ++ kv.1 ++ "\"")

/-- The insert placeholder list as the spec words it: `$1..$n`. -/
def spec_insertPlaceholders (n : Nat) : String :=
  String.intercalate ", " ((List.range' 1 n).map fun i => "$" ++ toString i)

/-! Helper lemmas bridging the source's indexed maps (`enumFrom`) with the
spec's explicit placeholder ranges (`range'`). -/

theorem enumFrom_map_clause {α β : Type} (g : α → Nat → β) (k : Nat) :
    ∀ (s : Nat) (l : List α),
      (List.enumFrom s l).map (fun p => g p.2 (p.1 + 1 + k)) =
        List.zipWith g l (List.range' (s + 1 + k) l.length) := by
  intro s l
  induction l generalizing s with
  | nil => rfl
  | cons a t ih =>
      show g a (s + 1 + k) :: (List.enumFrom (s + 1) t).map (fun p => g p.2 (p.1 + 1 + k)) =
        g a (s + 1 + k) :: List.zipWith g t (List.range' (s + 1 + k + 1) t.length)
      have h := ih (s + 1)
      rw [show s + 1 + 1 + k = s + 1 + k + 1 from by omega] at h
      rw [h]

theorem enumFrom_map_base {α β : Type} (g : α → Nat → β) (s : Nat) (l : List α) :
    (List.enumFrom s l).map (fun p => g p.2 (p.1 + 1)) =
      List.zipWith g l (List.range' (s + 1) l.length) := by
  have h := enumFrom_map_clause g 0 s l
  simpa using h

theorem zipWith_snd_range {α β : Type} (g : Nat → β) :
    ∀ (s : Nat) (l : List α),
      List.zipWith (fun _ i => g i) l (List.range' s l.length) = (List.range' s l.length).map g := by
  intro s l
  induction l generalizing s with
  | nil => rfl
  | cons a t ih =>
      show g s :: List.zipWith (fun _ i => g i) t (List.range' (s + 1) t.length) =
        g s :: (List.range' (s + 1) t.length).map g
      rw [ih (s + 1)]

/-- The insert statement, reshaped into the spec's wording. -/
theorem buildInsert_shape (table : String) (data : List (String × Value)) :
    buildInsert table data =
      { text := "INSERT INTO \"" ++ table ++ "\" (" ++ spec_insertColumns data ++
          ") VALUES (" ++ spec_insertPlaceholders data.length ++ ") RETURNING *",
        values := data.map Prod.snd } := by
  have h := enumFrom_map_base (fun (_ : Value) i => "$" ++ toString i) 0 (data.map Prod.snd)
  simp only [Nat.zero_add, List.length_map] at h
  have hz := zipWith_snd_range (α := Value) (fun i => "$" ++ toString i) 1 (data.map Prod.snd)
  simp only [List.length_map] at hz
  simp only [buildInsert, spec_insertColumns, spec_insertPlaceholders]
  rw [h, hz]
  simp only [List.map_map]
  rfl

/-- The update statement, reshaped into the spec's wording. -/
theorem buildUpdate_shape (table : String) (data whereMap : List (String × Value)) :
    buildUpdate table data whereMap =
      { text := "UPDATE \"" ++ table ++ "\" SET " ++ spec_setClause data ++ " WHERE " ++
          spec_whereClause data.length whereMap ++ " RETURNING *",
        values := data.map Prod.snd ++ whereMap.map Prod.snd } := by
  have hset := enumFrom_map_base (fun (col : String) i => "\"" ++ col ++ "\" = $" ++ toString i)
    0 (data.map Prod.fst)
  simp only [Nat.zero_add, List.length_map] at hset
  have hwhere := enumFrom_map_clause
    (fun (col : String) i => "\"" ++ col ++ "\" = $" ++ toString i)
    data.length 0 (whereMap.map Prod.fst)
  simp only [Nat.zero_add, List.length_map] at hwhere
  rw [Nat.add_comm 1 data.length] at hwhere
  simp only [buildUpdate, spec_setClause, spec_whereClause, List.length_map]
  rw [hset, hwhere]

/-- The delete statement, reshaped into the spec's wording (its WHERE
placeholders are those of an update with an empty SET map). -/
theorem buildDelete_shape (table : String) (whereMap : List (String × Value)) :
    buildDelete table whereMap =
      { text := "DELETE FROM \"" ++ table ++ "\" WHERE " ++ spec_whereClause 0 whereMap ++
          " RETURNING *",
        values := whereMap.map Prod.snd } := by
  have h := enumFrom_map_base (fun (col : String) i => "\"" ++ col ++ "\" = $" ++ toString i)
    0 (whereMap.map Prod.fst)
  simp only [Nat.zero_add, List.length_map] at h
  simp only [buildDelete, spec_whereClause, Nat.zero_add, List.length_map]
  rw [h]

/-! Trace helpers: the second component of each handler result. -/

theorem execRespond_snd (db : Db) (stmt : Statement) (mk : List Row → ToolResponse) :
    (execRespond db stmt mk).2 = [Event.exec stmt] := by
  unfold execRespond
  cases db stmt <;> rfl

theorem callTool_trace_query (db : Db) (sql : String) :
    (handleCallTool db (.query sql)).2 =
      [Event.acquire, Event.exec { text := sql, values := [] }, Event.release] := by
  show Event.acquire :: ((callToolBody db (.query sql)).2 ++ [Event.release]) = _
  rw [show (callToolBody db (.query sql)).2 =
    (execRespond db { text := sql, values := [] }
      (fun rows => { text := some (stringifyRows rows), isError := false })).2 from rfl]
  rw [execRespond_snd]
  rfl

theorem callTool_trace_insert (db : Db) (table : String) (data : List (String × Value)) :
    (handleCallTool db (.insert table data)).2 =
      [Event.acquire, Event.exec (buildInsert table data), Event.release] := by
  show Event.acquire :: ((callToolBody db (.insert table data)).2 ++ [Event.release]) = _
  rw [show (callToolBody db (.insert table data)).2 =
    (execRespond db (buildInsert table data)
      (fun rows => { text := (rows.head?).map stringifyRow, isError := false })).2 from rfl]
  rw [execRespond_snd]
  rfl

theorem callTool_trace_update (db : Db) (table : String)
    (data whereMap : List (String × Value)) :
    (handleCallTool db (.update table data whereMap)).2 =
      [Event.acquire, Event.exec (buildUpdate table data whereMap), Event.release] := by
  show Event.acquire :: ((callToolBody db (.update table data whereMap)).2 ++ [Event.release]) = _
  rw [show (callToolBody db (.update table data whereMap)).2 =
    (execRespond db (buildUpdate table data whereMap)
      (fun rows => { text := some (stringifyRows rows), isError := false })).2 from rfl]
  rw [execRespond_snd]
  rfl

theorem callTool_trace_delete (db : Db) (table : String) (whereMap : List (String × Value)) :
    (handleCallTool db (.delete table whereMap)).2 =
      [Event.acquire, Event.exec (buildDelete table whereMap), Event.release] := by
  show Event.acquire :: ((callToolBody db (.delete table whereMap)).2 ++ [Event.release]) = _
  rw [show (callToolBody db (.delete table whereMap)).2 =
    (execRespond db (buildDelete table whereMap)
      (fun rows => { text := some (stringifyRows rows), isError := false })).2 from rfl]
  rw [execRespond_snd]
  rfl

theorem callTool_trace_unknown (db : Db) (toolName : String) :
    (handleCallTool db (.unknown toolName)).2 = [Event.acquire, Event.release] := rfl

theorem readResource_invalid (db : Db) (uri : JsUrl)
    (h : (jsSplit uri.pathname '/').getLast? ≠ some SCHEMA_PATH) :
    handleReadResource db uri = (Except.error "Invalid resource URI", []) := by
  simp only [handleReadResource]
  rw [if_pos h]

theorem readResource_valid_events (db : Db) (uri : JsUrl)
    (h : (jsSplit uri.pathname '/').getLast? = some SCHEMA_PATH) :
    (handleReadResource db uri).2 =
      [Event.acquire,
       Event.exec (columnsStmt ((jsSplit uri.pathname '/').dropLast.getLast?)),
       Event.release] := by
  simp only [handleReadResource]
  rw [if_neg (not_not_intro h)]
  cases db (columnsStmt ((jsSplit uri.pathname '/').dropLast.getLast?)) <;> rfl

/-! Concrete fixtures used by witnesses and counterexamples. -/

/-- A driver that succeeds on every statement with zero rows. -/
def dbOkEmpty : Db := fun _ => Except.ok []

/-- A driver that rejects every statement. -/
def dbErr : Db := fun _ => Except.error "boom"

/-- A sample returned row. -/
def rowAnn : Row := [("id", Value.int 1), ("name", Value.str "Ann")]

/-- A driver that returns the single sample row on every statement. -/
def dbOneRow : Db := fun _ => Except.ok [rowAnn]

/-- A driver whose catalog holds one public table, `users`. -/
def dbUsersTable : Db := fun _ => Except.ok [[("table_name", Value.str "users")]]

/-- A connection string (parsed) with credentials `alice:pw1`. -/
def connAlice : JsUrl :=
  { protocol := "postgresql:", username := "alice", password := "pw1",
    host := "localhost:5432", pathname := "/mydb" }

/-- The same connection string with credentials `bob:pw2`. -/
def connBob : JsUrl :=
  { protocol := "postgresql:", username := "bob", password := "pw2",
    host := "localhost:5432", pathname := "/mydb" }

/-- A resource uri for table `users` on one host. -/
def urlA : JsUrl :=
  { protocol := "postgres:", username := "", password := "", host := "hostA",
    pathname := "/users/schema" }

/-- A resource uri with a different scheme, host and extra path prefix, but
the same final two path segments as `urlA`. -/
def urlB : JsUrl :=
  { protocol := "http:", username := "", password := "", host := "hostB:99",
    pathname := "/extra/users/schema" }

/-- A resource uri whose trailing segment is not the schema marker. -/
def urlColumns : JsUrl :=
  { protocol := "postgres:", username := "", password := "", host := "localhost",
    pathname := "/users/columns" }

/-- The uris of a list-resources outcome (empty on a propagated error). -/
def resourceUris (r : Except String (List ResourceDescriptor)) : List String :=
  match r with
  | .ok l => l.map ResourceDescriptor.uri
  | .error _ => []

/-- C1: for every non-empty data map and non-empty where map, the update tool
builds `UPDATE "<table>" SET <setClause> WHERE <whereClause> RETURNING *`
with SET placeholders $1..$k over data's keys in order, WHERE placeholders
$(k+1)..$(k+m) over where's keys joined by AND, bound values = values of
data followed by values of where; and the handler executes exactly that
statement. -/
theorem C1_update_statement (table : String) (data whereMap : List (String × Value)) (db : Db)
    (_hdata : data ≠ []) (_hwhere : whereMap ≠ []) :
    buildUpdate table data whereMap =
      { text := "UPDATE \"" ++ table ++ "\" SET " ++ spec_setClause data ++ " WHERE " ++
          spec_whereClause data.length whereMap ++ " RETURNING *",
        values := data.map Prod.snd ++ whereMap.map Prod.snd } ∧
    (handleCallTool db (.update table data whereMap)).2 =
      [Event.acquire, Event.exec (buildUpdate table data whereMap), Event.release] :=
  ⟨buildUpdate_shape table data whereMap, callTool_trace_update db table data whereMap⟩

/-- Witness for C1 at the spec's end-to-end example
`update(users, data = (name, Bea), where = (id, 1))`. -/
theorem C1_update_statement_witness :
    buildUpdate "users" [("name", Value.str "Bea")] [("id", Value.int 1)] =
      { text := "UPDATE \"users\" SET \"name\" = $1 WHERE \"id\" = $2 RETURNING *",
        values := [Value.str "Bea", Value.int 1] } := by
  have h := C1_update_statement "users" [("name", Value.str "Bea")] [("id", Value.int 1)]
    dbOkEmpty (by decide) (by decide)
  exact h.1.trans (by decide)

/-- C2 fails on the code: the update tool called with an empty where map does
not raise a validation error — the handler builds a statement with an empty
WHERE clause, contacts the database (the exec event is in the trace), and on
database success even reports no error; the delete tool behaves the same. -/
theorem C2_counterexample :
    (handleCallTool dbOkEmpty (.update "users" [("name", Value.str "Bea")] [])).2 =
      [Event.acquire,
       Event.exec { text := "UPDATE \"users\" SET \"name\" = $1 WHERE  RETURNING *",
                    values := [Value.str "Bea"] },
       Event.release] ∧
    (handleCallTool dbOkEmpty (.update "users" [("name", Value.str "Bea")] [])).1.isError
      = false ∧
    (handleCallTool dbOkEmpty (.delete "users" [])).2 =
      [Event.acquire,
       Event.exec { text := "DELETE FROM \"users\" WHERE  RETURNING *", values := [] },
       Event.release] ∧
    (handleCallTool dbOkEmpty (.delete "users" [])).1.isError = false := by
  decide

/-- C2 amended: update and delete called with an empty where map perform no
validation — the handler always builds and executes a statement whose WHERE
clause is the empty string, and any failure is the database's verdict at
execution time (on driver success the response is not error-flagged). -/
theorem C2_empty_where_executes (table : String) (data : List (String × Value)) (db : Db) :
    (handleCallTool db (.update table data [])).2 =
      [Event.acquire, Event.exec (buildUpdate table data []), Event.release] ∧
    (buildUpdate table data []).text =
      "UPDATE \"" ++ table ++ "\" SET " ++ spec_setClause data ++ " WHERE " ++
        spec_whereClause data.length [] ++ " RETURNING *" ∧
    spec_whereClause data.length [] = "" ∧
    (handleCallTool db (.delete table [])).2 =
      [Event.acquire, Event.exec (buildDelete table []), Event.release] ∧
    (buildDelete table []).text =
      "DELETE FROM \"" ++ table ++ "\" WHERE " ++ spec_whereClause 0 [] ++ " RETURNING *" ∧
    (∀ rows, db (buildUpdate table data []) = Except.ok rows →
      (handleCallTool db (.update table data [])).1.isError = false) ∧
    (∀ rows, db (buildDelete table []) = Except.ok rows →
      (handleCallTool db (.delete table [])).1.isError = false) := by
  refine ⟨callTool_trace_update db table data [], ?_, rfl,
    callTool_trace_delete db table [], ?_, ?_, ?_⟩
  · exact congrArg Statement.text (buildUpdate_shape table data [])
  · exact congrArg Statement.text (buildDelete_shape table [])
  · intro rows h
    simp [handleCallTool, callToolBody, execRespond, h]
  · intro rows h
    simp [handleCallTool, callToolBody, execRespond, h]

/-- Witness for the amended C2: with an always-succeeding driver, both calls
come back unflagged. -/
theorem C2_empty_where_executes_witness :
    dbOkEmpty (buildUpdate "users" [("name", Value.str "Bea")] []) = Except.ok [] ∧
    (handleCallTool dbOkEmpty (.update "users" [("name", Value.str "Bea")] [])).1.isError
      = false ∧
    (handleCallTool dbOkEmpty (.delete "users" [])).1.isError = false := by
  have h := C2_empty_where_executes "users" [("name", Value.str "Bea")] dbOkEmpty
  exact ⟨rfl, h.2.2.2.2.2.1 [] rfl, h.2.2.2.2.2.2 [] rfl⟩

/-- C3 fails on the code: the insert tool called with an empty data map does
not raise a validation error — the malformed statement
`INSERT INTO "users" () VALUES () RETURNING *` is built and executed. -/
theorem C3_counterexample :
    (handleCallTool dbOkEmpty (.insert "users" [])).2 =
      [Event.acquire,
       Event.exec { text := "INSERT INTO \"users\" () VALUES () RETURNING *", values := [] },
       Event.release] ∧
    (handleCallTool dbOkEmpty (.insert "users" [])).1.isError = false := by
  decide

/-- C3 amended: insert called with an empty data map performs no validation —
the handler builds and executes a statement with empty column and placeholder
lists, and rejection, if any, is the database's at execution time. -/
theorem C3_empty_data_executes (table : String) (db : Db) :
    (handleCallTool db (.insert table [])).2 =
      [Event.acquire, Event.exec (buildInsert table []), Event.release] ∧
    (buildInsert table []).text =
      "INSERT INTO \"" ++ table ++ "\" (" ++ spec_insertColumns [] ++ ") VALUES (" ++
        spec_insertPlaceholders 0 ++ ") RETURNING *" ∧
    spec_insertColumns [] = "" ∧
    spec_insertPlaceholders 0 = "" ∧
    (∀ rows, db (buildInsert table []) = Except.ok rows →
      (handleCallTool db (.insert table [])).1.isError = false) := by
  refine ⟨callTool_trace_insert db table [], ?_, rfl, rfl, ?_⟩
  · exact congrArg Statement.text (buildInsert_shape table [])
  · intro rows h
    simp [handleCallTool, callToolBody, execRespond, h]

/-- Witness for the amended C3. -/
theorem C3_empty_data_executes_witness :
    dbOkEmpty (buildInsert "users" []) = Except.ok [] ∧
    (handleCallTool dbOkEmpty (.insert "users" [])).1.isError = false := by
  have h := C3_empty_data_executes "users" dbOkEmpty
  exact ⟨rfl, h.2.2.2.2 [] rfl⟩

/-- C4: for every non-empty data map, the insert tool builds
`INSERT INTO "<table>" (<cols>) VALUES ($1..$n) RETURNING *` with exactly
`len(data)` placeholders and `len(data)` bound values, the i-th placeholder
matching data's i-th value in iteration order; the handler executes exactly
that statement. -/
theorem C4_insert_statement (table : String) (data : List (String × Value)) (db : Db)
    (_hdata : data ≠ []) :
    buildInsert table data =
      { text := "INSERT INTO \"" ++ table ++ "\" (" ++ spec_insertColumns data ++
          ") VALUES (" ++ spec_insertPlaceholders data.length ++ ") RETURNING *",
        values := data.map Prod.snd } ∧
    ((List.range' 1 data.length).map fun i => "$" ++ toString i).length = data.length ∧
    (buildInsert table data).values.length = data.length ∧
    (buildInsert table data).values = data.map Prod.snd ∧
    (handleCallTool db (.insert table data)).2 =
      [Event.acquire, Event.exec (buildInsert table data), Event.release] := by
  refine ⟨buildInsert_shape table data, by simp, ?_, ?_, callTool_trace_insert db table data⟩
  · rw [buildInsert_shape]
    simp
  · rw [buildInsert_shape]

/-- Witness for C4 at the spec's end-to-end example
`insert(users, data = (name, Ann))`. -/
theorem C4_insert_statement_witness :
    buildInsert "users" [("name", Value.str "Ann")] =
      { text := "INSERT INTO \"users\" (\"name\") VALUES ($1) RETURNING *",
        values := [Value.str "Ann"] } := by
  have h := C4_insert_statement "users" [("name", Value.str "Ann")] dbOkEmpty (by decide)
  exact h.1.trans (by decide)

/-- C5: any exception thrown inside the call-tool switch — including the
`Unknown tool` throw of the default arm — is caught and converted into a
response with `isError = true` and message `Error: <message>`; the handler
itself returns a response rather than propagating. -/
theorem C5_errors_converted (db : Db) (req : ToolRequest) (toolName msg : String) :
    (handleCallTool db (.unknown toolName)).1 =
      { text := some ("Error: " ++ ("Unknown tool: " ++ toolName)), isError := true } ∧
    ((callToolBody db req).1 = Except.error msg →
      (handleCallTool db req).1 = { text := some ("Error: " ++ msg), isError := true }) := by
  constructor
  · rfl
  · intro h
    have hm : (handleCallTool db req).1 =
        match (callToolBody db req).1 with
        | .ok r => r
        | .error m => { text := some ("Error: " ++ m), isError := true } := rfl
    rw [hm, h]

/-- Witness for C5: a failing driver and an unknown tool name, both converted
to error-flagged responses. -/
theorem C5_errors_converted_witness :
    (callToolBody dbErr (.query "SELECT 1")).1 = Except.error "boom" ∧
    (handleCallTool dbErr (.unknown "foo")).1 =
      { text := some ("Error: " ++ ("Unknown tool: " ++ "foo")), isError := true } ∧
    (handleCallTool dbErr (.query "SELECT 1")).1 =
      { text := some ("Error: " ++ "boom"), isError := true } :=
  ⟨rfl, (C5_errors_converted dbErr (.query "SELECT 1") "foo" "boom").1,
   (C5_errors_converted dbErr (.query "SELECT 1") "foo" "boom").2 rfl⟩

/-- C6: each handler that acquires a connection releases it exactly once on
every exit path — the trace holds one acquire and one release, the release
last; for read-resource this is conditional on an acquisition happening at
all (the invalid-uri throw happens before `pool.connect()`). -/
theorem C6_release_every_path (db : Db) (req : ToolRequest) (databaseUrl uri : JsUrl) :
    (releaseCount (handleCallTool db req).2 = 1 ∧
     acquireCount (handleCallTool db req).2 = 1 ∧
     (handleCallTool db req).2.getLast? = some Event.release) ∧
    (releaseCount (handleListResources databaseUrl db).2 = 1 ∧
     acquireCount (handleListResources databaseUrl db).2 = 1 ∧
     (handleListResources databaseUrl db).2.getLast? = some Event.release) ∧
    (Event.acquire ∈ (handleReadResource db uri).2 →
      releaseCount (handleReadResource db uri).2 = 1 ∧
      acquireCount (handleReadResource db uri).2 = 1 ∧
      (handleReadResource db uri).2.getLast? = some Event.release) := by
  refine ⟨?_, ?_, ?_⟩
  · cases req with
    | query sql => rw [callTool_trace_query]; exact ⟨rfl, rfl, rfl⟩
    | insert table data => rw [callTool_trace_insert]; exact ⟨rfl, rfl, rfl⟩
    | update table data whereMap => rw [callTool_trace_update]; exact ⟨rfl, rfl, rfl⟩
    | delete table whereMap => rw [callTool_trace_delete]; exact ⟨rfl, rfl, rfl⟩
    | unknown toolName => exact ⟨rfl, rfl, rfl⟩
  · have h2 : (handleListResources databaseUrl db).2 =
        [Event.acquire, Event.exec listTablesStmt, Event.release] := by
      unfold handleListResources
      cases db listTablesStmt <;> rfl
    rw [h2]; exact ⟨rfl, rfl, rfl⟩
  · intro hacq
    rcases Decidable.em ((jsSplit uri.pathname '/').getLast? = some SCHEMA_PATH) with hc | hc
    · rw [readResource_valid_events db uri hc]
      exact ⟨rfl, rfl, rfl⟩
    · rw [readResource_invalid db uri hc] at hacq
      simp at hacq

/-- Witness for C6 at a uri that does acquire a connection. -/
theorem C6_release_every_path_witness :
    Event.acquire ∈ (handleReadResource dbOkEmpty urlA).2 ∧
    releaseCount (handleReadResource dbOkEmpty urlA).2 = 1 :=
  ⟨by decide,
   ((C6_release_every_path dbOkEmpty (.query "SELECT 1") urlA urlA).2.2 (by decide)).1⟩

/-- C7: a read-resource uri whose trailing path segment is not the fixed
`schema` marker makes the handler throw `Invalid resource URI` — the error
propagates (the handler result is the error, not a converted response body)
and no connection is ever touched. -/
theorem C7_invalid_resource (db : Db) (uri : JsUrl)
    (h : (jsSplit uri.pathname '/').getLast? ≠ some "schema") :
    handleReadResource db uri = (Except.error "Invalid resource URI", []) :=
  readResource_invalid db uri h

/-- Witness for C7 at pathname `/users/columns`. -/
theorem C7_invalid_resource_witness :
    (jsSplit urlColumns.pathname '/').getLast? ≠ some "schema" ∧
    handleReadResource dbOkEmpty urlColumns =
      (Except.error "Invalid resource URI", []) :=
  ⟨by decide, C7_invalid_resource dbOkEmpty urlColumns (by decide)⟩

/-- C8: on driver success, insert answers with only the first returned row
serialized, while query, update and delete answer with the full returned row
sequence serialized; none of these flags an error. -/
theorem C8_response_content (db : Db) (sql table : String)
    (data whereMap : List (String × Value)) (r : Row) (rest rows : List Row) :
    (db { text := sql, values := [] } = Except.ok rows →
      (handleCallTool db (.query sql)).1 =
        { text := some (stringifyRows rows), isError := false }) ∧
    (db (buildInsert table data) = Except.ok (r :: rest) →
      (handleCallTool db (.insert table data)).1 =
        { text := some (stringifyRow r), isError := false }) ∧
    (db (buildUpdate table data whereMap) = Except.ok rows →
      (handleCallTool db (.update table data whereMap)).1 =
        { text := some (stringifyRows rows), isError := false }) ∧
    (db (buildDelete table whereMap) = Except.ok rows →
      (handleCallTool db (.delete table whereMap)).1 =
        { text := some (stringifyRows rows), isError := false }) := by
  refine ⟨?_, ?_, ?_, ?_⟩ <;> intro h <;>
    simp [handleCallTool, callToolBody, execRespond, h]

/-- Witness for C8 with a driver returning one row on every statement. -/
theorem C8_response_content_witness :
    (handleCallTool dbOneRow (.query "SELECT 1")).1 =
      { text := some (stringifyRows [rowAnn]), isError := false } ∧
    (handleCallTool dbOneRow (.insert "users" [("name", Value.str "Ann")])).1 =
      { text := some (stringifyRow rowAnn), isError := false } ∧
    (handleCallTool dbOneRow
        (.update "users" [("name", Value.str "Ann")] [("id", Value.int 1)])).1 =
      { text := some (stringifyRows [rowAnn]), isError := false } ∧
    (handleCallTool dbOneRow (.delete "users" [("id", Value.int 1)])).1 =
      { text := some (stringifyRows [rowAnn]), isError := false } := by
  have h := C8_response_content dbOneRow "SELECT 1" "users"
    [("name", Value.str "Ann")] [("id", Value.int 1)] rowAnn [] [rowAnn]
  exact ⟨h.1 rfl, h.2.1 rfl, h.2.2.1 rfl, h.2.2.2 rfl⟩

/-- C9 fails on the code: lines 34-36 clear only the password of the base
url, not the username — two connection strings differing only in their
embedded credentials (username and password) yield different resource uris,
and the username appears in every uri. -/
theorem C9_counterexample :
    connAlice.protocol = connBob.protocol ∧ connAlice.host = connBob.host ∧
    connAlice.pathname = connBob.pathname ∧
    resourceUris (handleListResources connAlice dbUsersTable).1 ≠
      resourceUris (handleListResources connBob dbUsersTable).1 ∧
    resourceUris (handleListResources connAlice dbUsersTable).1 =
      ["postgres://alice@localhost:5432/users/schema"] := by
  refine ⟨rfl, rfl, rfl, ?_, ?_⟩ <;> decide

/-- C9 amended: the base url is derived from the connection string with the
password (only) stripped, so two connection strings that differ only in
their password produce identical list-resources results — no password
material reaches any resource uri. -/
theorem C9_password_stripped (db : Db) (u₁ u₂ : JsUrl)
    (_hp : u₁.protocol = u₂.protocol) (hu : u₁.username = u₂.username)
    (hh : u₁.host = u₂.host) (hpath : u₁.pathname = u₂.pathname) :
    handleListResources u₁ db = handleListResources u₂ db := by
  have hbase : resourceBaseUrl u₁ = resourceBaseUrl u₂ := by
    rw [show resourceBaseUrl u₁ =
      { protocol := "postgres:", username := u₁.username, password := "",
        host := u₁.host, pathname := u₁.pathname } from rfl]
    rw [show resourceBaseUrl u₂ =
      { protocol := "postgres:", username := u₂.username, password := "",
        host := u₂.host, pathname := u₂.pathname } from rfl]
    rw [hu, hh, hpath]
  unfold handleListResources
  rw [hbase]

/-- Witness for the amended C9: changing only the password changes nothing. -/
theorem C9_password_stripped_witness :
    handleListResources connAlice dbUsersTable =
      handleListResources { connAlice with password := "other" } dbUsersTable :=
  C9_password_stripped dbUsersTable connAlice { connAlice with password := "other" }
    rfl rfl rfl rfl

/-- C10: read-resource consults only the last two path segments — two uris
agreeing on them produce the same trace and the same served text whatever
their scheme, host or earlier segments — and any uri whose path ends in
`<tableName>/schema` is accepted and served from the catalog query that
filters by table name only (no table-schema filter), binding the popped
table name as its single parameter. -/
theorem C10_path_suffix_only (db : Db) (u₁ u₂ uri : JsUrl) (tableName : String)
    (rows : List Row)
    (hlast : (jsSplit u₁.pathname '/').getLast? = (jsSplit u₂.pathname '/').getLast?)
    (hprev : (jsSplit u₁.pathname '/').dropLast.getLast? =
      (jsSplit u₂.pathname '/').dropLast.getLast?)
    (hschema : (jsSplit uri.pathname '/').getLast? = some "schema")
    (htable : (jsSplit uri.pathname '/').dropLast.getLast? = some tableName)
    (hdb : db (columnsStmt (some tableName)) = Except.ok rows) :
    ((handleReadResource db u₁).2 = (handleReadResource db u₂).2 ∧
     (handleReadResource db u₁).1.map ResourceContents.text =
       (handleReadResource db u₂).1.map ResourceContents.text) ∧
    handleReadResource db uri =
      (Except.ok { uri := uri.href, mimeType := "application/json",
                   text := stringifyRows rows },
       [Event.acquire, Event.exec (columnsStmt (some tableName)), Event.release]) ∧
    (columnsStmt (some tableName)).text =
      "SELECT column_name, data_type FROM information_schema.columns WHERE table_name = $1" ∧
    (columnsStmt (some tableName)).values = [Value.str tableName] := by
  refine ⟨⟨?_, ?_⟩, ?_, rfl, rfl⟩
  · simp only [handleReadResource]
    rw [hlast, hprev]
    rcases Decidable.em ((jsSplit u₂.pathname '/').getLast? ≠ some SCHEMA_PATH) with hc | hc
    · rw [if_pos hc, if_pos hc]
    · rw [if_neg hc, if_neg hc]
      cases db (columnsStmt ((jsSplit u₂.pathname '/').dropLast.getLast?)) <;> rfl
  · simp only [handleReadResource]
    rw [hlast, hprev]
    rcases Decidable.em ((jsSplit u₂.pathname '/').getLast? ≠ some SCHEMA_PATH) with hc | hc
    · rw [if_pos hc, if_pos hc]
    · rw [if_neg hc, if_neg hc]
      cases db (columnsStmt ((jsSplit u₂.pathname '/').dropLast.getLast?)) <;> rfl
  · simp only [handleReadResource, SCHEMA_PATH]
    rw [if_neg (not_not_intro hschema), htable, hdb]

/-- Witness for C10: same trailing `users/schema` under different scheme,
host and path prefix. -/
theorem C10_path_suffix_only_witness :
    ((handleReadResource dbOkEmpty urlA).2 = (handleReadResource dbOkEmpty urlB).2 ∧
     (handleReadResource dbOkEmpty urlA).1.map ResourceContents.text =
       (handleReadResource dbOkEmpty urlB).1.map ResourceContents.text) ∧
    handleReadResource dbOkEmpty urlA =
      (Except.ok { uri := urlA.href, mimeType := "application/json",
                   text := stringifyRows [] },
       [Event.acquire, Event.exec (columnsStmt (some "users")), Event.release]) ∧
    (columnsStmt (some "users")).text =
      "SELECT column_name, data_type FROM information_schema.columns WHERE table_name = $1" ∧
    (columnsStmt (some "users")).values = [Value.str "users"] :=
  C10_path_suffix_only dbOkEmpty urlA urlB urlA "users" []
    (by decide) (by decide) (by decide) (by decide) rfl

end Pg
